import Mathlib

/-!
Verification development for the timeline ingestion and statistics engine of
travelrecap.my.  The definitions below are a shallow embedding of the
JavaScript source in `src/unnamed/part_004` (second document — the variant of
`timeline-utils.js` with the two-schema support: `getSegmentsFromData`,
`parseLatLngString` with the `geo:` prefix, `normalizeActivityType`,
`Number(...)` coercion of distances) together with the parts shared verbatim
with `src/timeline-utils.js` (`pointInPolygon`, `CountryLookup`,
`getCountryFromLatLng`).  JavaScript numbers are modelled as `ℚ`, with
`Option` used for values that can be `NaN`/absent; strings are Lean `String`
(processed as `List Char`); JavaScript `Date` values are modelled as already
parsed epoch-milliseconds plus calendar year.  The probability-threshold
filter of `processTimelineData` exists in the repository only through its
tests and callers; it is modelled from the spec where noted.
-/

namespace TravelRecap

/-! ### Kernel-reducible rational arithmetic

The field operations on `ℚ` are `@[irreducible]`, which stops `decide` from
evaluating concrete results.  The embedding therefore uses the following
`mkRat`-based operations, each proved equal to the corresponding field
operation so that symbolic reasoning can switch back to `+`, `*`, `-`, `/`. -/

/-- Addition on `ℚ` by explicit numerator/denominator arithmetic. -/
def qadd (a b : ℚ) : ℚ := mkRat (a.num * b.den + b.num * a.den) (a.den * b.den)

/-- Multiplication on `ℚ` by explicit numerator/denominator arithmetic. -/
def qmul (a b : ℚ) : ℚ := mkRat (a.num * b.num) (a.den * b.den)

/-- Negation on `ℚ` by explicit numerator arithmetic. -/
def qneg (a : ℚ) : ℚ := mkRat (-a.num) a.den

/-- Inverse on `ℚ` (`qinv 0 = 0`, as for `Inv ℚ`). -/
def qinv (a : ℚ) : ℚ := Rat.divInt a.den a.num

/-- Subtraction on `ℚ`. -/
def qsub (a b : ℚ) : ℚ := qadd a (qneg b)

/-- Division on `ℚ` (`qdiv a 0 = 0`, as for `/` on `ℚ`). -/
def qdiv (a b : ℚ) : ℚ := qmul a (qinv b)

theorem mkRat_eq_div (n : Int) (d : Nat) : mkRat n d = (n : ℚ) / (d : ℚ) := by
  rw [Rat.mkRat_eq_divInt, Rat.divInt_eq_div]
  norm_num

theorem qadd_eq (a b : ℚ) : qadd a b = a + b := by
  have ha : ((a.den : ℚ)) ≠ 0 := by exact_mod_cast a.den_nz
  have hb : ((b.den : ℚ)) ≠ 0 := by exact_mod_cast b.den_nz
  rw [qadd, mkRat_eq_div]
  push_cast
  conv_rhs => rw [← Rat.num_div_den a, ← Rat.num_div_den b]
  rw [div_add_div _ _ ha hb]
  ring_nf

theorem qmul_eq (a b : ℚ) : qmul a b = a * b := by
  rw [qmul, mkRat_eq_div]
  push_cast
  conv_rhs => rw [← Rat.num_div_den a, ← Rat.num_div_den b]
  rw [div_mul_div_comm]

theorem qneg_eq (a : ℚ) : qneg a = -a := by
  rw [qneg, mkRat_eq_div]
  push_cast
  rw [neg_div, Rat.num_div_den]

theorem qsub_eq (a b : ℚ) : qsub a b = a - b := by
  rw [qsub, qadd_eq, qneg_eq, sub_eq_add_neg]

theorem qinv_eq (a : ℚ) : qinv a = a⁻¹ := (Rat.inv_def a).symm

theorem qdiv_eq (a b : ℚ) : qdiv a b = a / b := by
  rw [qdiv, qmul_eq, qinv_eq, div_eq_mul_inv]

/-! ### JavaScript string and number primitives -/

/-- Code points JavaScript's `\s` character class (and `String.prototype.trim`)
treats as whitespace. -/
def jsWsCodes : List Nat :=
  [9, 10, 11, 12, 13, 32, 160, 5760, 8192, 8193, 8194, 8195, 8196, 8197,
   8198, 8199, 8200, 8201, 8202, 8232, 8233, 8239, 8287, 12288, 65279]

/-- Whether a character is JavaScript whitespace. -/
def jsIsWs (c : Char) : Bool := decide (c.toNat ∈ jsWsCodes)

/-- `String.prototype.toUpperCase` restricted to ASCII letters (the only
characters the activity-type data contains). -/
def jsToUpper (c : Char) : Char :=
  if 97 ≤ c.toNat ∧ c.toNat ≤ 122 then Char.ofNat (c.toNat - 32) else c

/-- Consume a maximal run of decimal digits, returning the accumulated value,
the number of digits consumed and the rest of the input. -/
def takeDigits : List Char → Nat → Nat → Nat × Nat × List Char
  | [], v, n => (v, n, [])
  | c :: cs, v, n =>
    if c.isDigit then takeDigits cs (v * 10 + (c.toNat - 48)) (n + 1)
    else (v, n, c :: cs)

/-- Consume an optional leading sign. -/
def takeSign : List Char → Int × List Char
  | '-' :: cs => (-1, cs)
  | '+' :: cs => (1, cs)
  | l => (1, l)

/-- Value of an optional exponent suffix under `parseFloat` semantics: an
`e`/`E` followed by no digits is ignored (exponent 0). -/
def expValue (l : List Char) : Int :=
  match l with
  | c :: cs =>
    if c = 'e' ∨ c = 'E' then
      let (sg, cs1) := takeSign cs
      let (v, n, _) := takeDigits cs1 0 0
      if n = 0 then 0 else sg * v
    else 0
  | [] => 0

/-- `10 ^ e` as a rational, for integer `e`. -/
def tenPow (e : Int) : ℚ :=
  if 0 ≤ e then mkRat ((10 : Int) ^ e.toNat) 1 else mkRat 1 (10 ^ (-e).toNat)

/-- JavaScript `parseFloat` on the decimal fragment it actually sees in this
code base: leading whitespace, optional sign, digits with an optional decimal
point and exponent, longest valid prefix; `none` models `NaN` (no numeric
prefix).  `Infinity` and hex literals are outside the modelled subset. -/
def jsParseFloat (l : List Char) : Option ℚ :=
  let l1 := l.dropWhile jsIsWs
  let (sg, l2) := takeSign l1
  let (iv, ic, l3) := takeDigits l2 0 0
  match l3 with
  | '.' :: l4 =>
    let (fv, fc, l5) := takeDigits l4 0 0
    if ic = 0 ∧ fc = 0 then none
    else some (qmul (mkRat (sg * (((iv * 10 ^ fc + fv : Nat)) : Int)) (10 ^ fc)) (tenPow (expValue l5)))
  | _ =>
    if ic = 0 then none
    else some (qmul (mkRat (sg * (iv : Int)) 1) (tenPow (expValue l3)))

/-- Exponent suffix under strict `Number(...)` semantics: an `e`/`E` with no
digits makes the whole string non-numeric. -/
def expValueStrict (l : List Char) : Option (Int × List Char) :=
  match l with
  | c :: cs =>
    if c = 'e' ∨ c = 'E' then
      let (sg, cs1) := takeSign cs
      let (v, n, rest) := takeDigits cs1 0 0
      if n = 0 then none else some (sg * v, rest)
    else some (0, c :: cs)
  | [] => some (0, [])

/-- Strip JavaScript whitespace from both ends. -/
def jsTrim (l : List Char) : List Char :=
  ((l.dropWhile jsIsWs).reverse.dropWhile jsIsWs).reverse

/-- JavaScript `Number(...)` applied to a string (decimal subset): the whole
trimmed string must be numeric; the empty string coerces to `0`; `none`
models `NaN`. -/
def jsStrictNumber (s : String) : Option ℚ :=
  let t := jsTrim s.data
  if t = [] then some 0
  else
    let (sg, l2) := takeSign t
    let (iv, ic, l3) := takeDigits l2 0 0
    match l3 with
    | '.' :: l4 =>
      let (fv, fc, l5) := takeDigits l4 0 0
      if ic = 0 ∧ fc = 0 then none
      else
        match expValueStrict l5 with
        | some (e, []) => some (qmul (mkRat (sg * (((iv * 10 ^ fc + fv : Nat)) : Int)) (10 ^ fc)) (tenPow e))
        | _ => none
    | _ =>
      if ic = 0 then none
      else
        match expValueStrict l3 with
        | some (e, []) => some (qmul (mkRat (sg * (iv : Int)) 1) (tenPow e))
        | _ => none

/-- `parseInt(x, 10) || 0` as used for `durationMinutesOffsetFromStartTime`. -/
def jsParseIntOrZero (s : Option String) : Int :=
  match s with
  | none => 0
  | some str =>
    let l1 := str.data.dropWhile jsIsWs
    let (sg, l2) := takeSign l1
    let (v, n, _) := takeDigits l2 0 0
    if n = 0 then 0 else sg * v

/-- `String.prototype.split(',')` on a character list. -/
def splitOnComma (l : List Char) : List (List Char) :=
  match l with
  | [] => [[]]
  | c :: cs =>
    let rest := splitOnComma cs
    if c = ',' then [] :: rest
    else
      match rest with
      | r :: rs => (c :: r) :: rs
      | [] => [[c]]

/-- `.replace(/°/g, '')`. -/
def removeDegree (l : List Char) : List Char := l.filter (fun c => c ≠ '°')

/-- `.replace(/^geo:/i, '')`: drop one leading case-insensitive `geo:`. -/
def stripGeo (l : List Char) : List Char :=
  match l with
  | g :: e :: o :: col :: rest =>
    if (g = 'g' ∨ g = 'G') ∧ (e = 'e' ∨ e = 'E') ∧ (o = 'o' ∨ o = 'O') ∧ col = ':' then rest
    else l
  | _ => l

/-- `parseLatLngString` from `src/unnamed/part_004` (second document),
lines 355-364: strip a leading `geo:` prefix and all degree symbols, trim,
split on comma, `parseFloat` each trimmed component; `none` models the
`null` failure sentinel (also returned for a non-string/empty argument). -/
def parseLatLngString (latLngStr : String) : Option (ℚ × ℚ) :=
  if latLngStr = "" then none
  else
    match splitOnComma (jsTrim (removeDegree (stripGeo latLngStr.data))) with
    | [p1, p2] =>
      match jsParseFloat (jsTrim p1), jsParseFloat (jsTrim p2) with
      | some lat, some lng => some (lat, lng)
      | _, _ => none
    | _ => none

/-! ### Activity-type canonicalization (`normalizeActivityType`) -/

/-- `.replace(/\s+/g, '_')`: collapse every run of whitespace to a single
underscore.  The flag records whether the previous character was part of a
whitespace run already replaced. -/
def collapseWsGo (prevWs : Bool) : List Char → List Char
  | [] => []
  | c :: cs =>
    if jsIsWs c then
      if prevWs then collapseWsGo true cs else '_' :: collapseWsGo true cs
    else c :: collapseWsGo false cs

/-- `normalizeActivityType` from `src/unnamed/part_004` (second document),
lines 378-382: absent / non-string / empty input gives `UNKNOWN`; otherwise
uppercase and collapse whitespace runs to underscores (with the dead-code
`|| 'UNKNOWN'` fallback kept for fidelity). -/
def normalizeActivityType (type : Option String) : String :=
  match type with
  | none => "UNKNOWN"
  | some s =>
    if s = "" then "UNKNOWN"
    else
      let upper := collapseWsGo false (s.data.map jsToUpper)
      if upper = [] then "UNKNOWN" else String.mk upper

/-! ### Ray-casting point-in-polygon and the country lookup -/

/-- The denominator used by the edge-intersection test: the latitude delta,
with the source's `|| 1e-12` guard against horizontal edges. -/
def pipDenom (yi yj : ℚ) : ℚ := if qsub yj yi = 0 then mkRat 1 (10 ^ 12) else qsub yj yi

/-- One edge test of the ray-casting loop of `pointInPolygon`
(`src/timeline-utils.js` lines 60-63): `(xi, yi)` is `polygon[i]`,
`(xj, yj)` is `polygon[j]`, both in `[lng, lat]` order. -/
def edgeCrosses (lat lng xi yi xj yj : ℚ) : Bool :=
  (decide (yi > lat) != decide (yj > lat)) &&
    decide (lng < qadd (qdiv (qmul (qsub xj xi) (qsub lat yi)) (pipDenom yi yj)) xi)

/-- `pointInPolygon` from `src/timeline-utils.js` lines 52-66: ray casting
over the edges `(polygon[i], polygon[j])` where `j` starts at the last index
and trails `i`.  Points are `[lng, lat]` pairs. -/
def pointInPolygon (lat lng : ℚ) (polygon : List (ℚ × ℚ)) : Bool :=
  match polygon with
  | [] => false
  | p :: ps =>
    let pts := p :: ps
    (pts.zip (pts.getLast (by simp) :: pts)).foldl
      (fun inside pr =>
        if edgeCrosses lat lng pr.1.1 pr.1.2 pr.2.1 pr.2.2 then !inside else inside)
      false

/-- A GeoJSON geometry as consumed by `CountryLookup.getCountry`: geometry
types other than `Polygon`/`MultiPolygon`, and missing/degenerate geometry,
are modelled as an absent geometry (the source `continue`s on them). -/
inductive Geometry
  | polygon (rings : List (List (ℚ × ℚ)))
  | multiPolygon (polys : List (List (List (ℚ × ℚ))))
deriving DecidableEq, Repr

/-- One feature of the boundary dataset.  `name` models
`props.ADMIN || props.name || props.NAME || null` (an empty-string name is
modelled as absent, since it is falsy in the source). -/
structure GeoFeature where
  name : Option String
  geometry : Option Geometry
deriving DecidableEq, Repr

/-- The country-boundary lookup (`CountryLookup` class,
`src/timeline-utils.js` lines 68-94). -/
structure CountryLookup where
  features : List GeoFeature
deriving DecidableEq, Repr

/-- Whether a feature's geometry contains the point, per the source's
any-ring containment (holes are not subtracted). -/
def featureContains (f : GeoFeature) (lat lng : ℚ) : Bool :=
  match f.geometry with
  | none => false
  | some (.polygon rings) => rings.any (fun ring => pointInPolygon lat lng ring)
  | some (.multiPolygon polys) =>
    polys.any (fun poly => poly.any (fun ring => pointInPolygon lat lng ring))

/-- `CountryLookup.getCountry`: first feature containing the point wins; its
(possibly absent) name is returned. -/
def getCountry (cl : CountryLookup) (lat lng : ℚ) : Option String :=
  match cl.features.find? (fun f => featureContains f lat lng) with
  | some f => f.name
  | none => none

/-- `getCountryFromLatLng` (`src/timeline-utils.js` lines 114-117): the
module-level `countryLookupInstance` is modelled as an explicit
`Option CountryLookup` argument; when it was never configured the result is
always `null`. -/
def getCountryFromLatLng (inst : Option CountryLookup) (lat lng : ℚ) : Option String :=
  match inst with
  | none => none
  | some cl => getCountry cl lat lng

/-! ### The data model -/

/-- A parsed `Date`: epoch milliseconds and the calendar year
(`getFullYear`).  Absent or unparseable timestamp strings are modelled as an
absent `DateVal`. -/
structure DateVal where
  epochMs : Int
  year : Int
deriving DecidableEq, Repr

/-- A JSON field that is either a number or a string (the second schema
variant sends numbers as strings). -/
inductive NumField
  | num (q : ℚ)
  | str (s : String)
deriving DecidableEq, Repr

/-- `topCandidate.placeLocation`: an object with `latLng`/`name` fields
(first schema) or a bare `"geo:lat,lng"` string (second schema). -/
inductive PlaceLoc
  | obj (latLng : Option String) (name : Option String)
  | str (s : String)
deriving DecidableEq, Repr

/-- `visit.topCandidate`.  `placeId` models `placeId || placeID` merged into
one optional field. -/
structure VisitTopCandidate where
  placeId : Option String
  placeLocation : Option PlaceLoc
deriving DecidableEq, Repr

/-- `segment.visit`.  A `null` probability is folded into an absent one (both
behave identically in the source). -/
structure Visit where
  probability : Option NumField
  topCandidate : Option VisitTopCandidate
deriving DecidableEq, Repr

/-- `activity.topCandidate`. -/
structure ActivityTopCandidate where
  type : Option String
deriving DecidableEq, Repr

/-- `segment.activity`. -/
structure Activity where
  distanceMeters : Option NumField
  topCandidate : Option ActivityTopCandidate
deriving DecidableEq, Repr

/-- One `timelinePath` trail point.  `point` covers both an object with a
`.point` string and a bare string entry (`point.point || point`). -/
structure TimelinePoint where
  point : Option String
  durationMinutesOffsetFromStartTime : Option String
deriving DecidableEq, Repr

/-- One semantic segment.  `country` is the side-channel field the extractor
writes onto the segment; an absent `timelinePath` is modelled as `[]` (the
source skips both an absent and an empty array identically). -/
structure Segment where
  startTime : Option DateVal := none
  endTime : Option DateVal := none
  visit : Option Visit := none
  activity : Option Activity := none
  timelinePath : List TimelinePoint := []
  country : Option String := none
deriving DecidableEq, Repr

/-- The parsed root JSON value: an object (with or without a
`semanticSegments` array), a bare array, or anything else. -/
inductive TimelineRoot
  | objRoot (semanticSegments : Option (List Segment))
  | arrRoot (segments : List Segment)
  | otherRoot
deriving DecidableEq, Repr

/-- `getSegmentsFromData` from `src/unnamed/part_004` (second document),
lines 369-373: a root array is returned as-is, an object contributes its
`semanticSegments` array when present, everything else gives `[]`. -/
def getSegmentsFromData (data : TimelineRoot) : List Segment :=
  match data with
  | .arrRoot segments => segments
  | .objRoot (some segments) => segments
  | .objRoot none => []
  | .otherRoot => []

/-- `getPlaceLatLngStr` (`src/unnamed/part_004` second document, lines
387-391): a string `placeLocation` is itself the coordinate string; an object
contributes `placeLocation.latLng || null` (empty strings are falsy). -/
def getPlaceLatLngStr (pl : Option PlaceLoc) : Option String :=
  match pl with
  | none => none
  | some (.str s) => if s = "" then none else some s
  | some (.obj latLng _) =>
    match latLng with
    | some s => if s = "" then none else some s
    | none => none

/-! ### JavaScript numeric coercion of fields -/

/-- `Number(x)` on an optional number-or-string field; `none` models `NaN`
(absent field, or non-numeric string). -/
def jsToNumber (f : Option NumField) : Option ℚ :=
  match f with
  | none => none
  | some (.num q) => some q
  | some (.str s) => jsStrictNumber s

/-- `Number(x) || 0`. -/
def jsNumberOrZero (f : Option NumField) : ℚ := (jsToNumber f).getD 0

/-- `NaN`-aware subtraction of epoch milliseconds
(`new Date(end) - new Date(start)`). -/
def jsSubMs : Option Int → Option Int → Option Int
  | some a, some b => some (a - b)
  | _, _ => none

/-- `NaN`-aware accumulation of a duration into a running total. -/
def jsAddMs : Option Int → Option Int → Option Int
  | some a, some b => some (a + b)
  | _, _ => none

/-- `new Date(segment.endTime) - new Date(segment.startTime)` in
milliseconds; `none` models the `NaN` produced by a missing timestamp. -/
def durationOf (seg : Segment) : Option Int :=
  jsSubMs (seg.endTime.map DateVal.epochMs) (seg.startTime.map DateVal.epochMs)

/-! ### Association-list helpers (JavaScript object maps, insertion order) -/

/-- Lookup in an association list (a JavaScript object used as a map). -/
def alookup {α β : Type} [DecidableEq α] : List (α × β) → α → Option β
  | [], _ => none
  | (k, v) :: rest, key => if key = k then some v else alookup rest key

/-- Update the value at a key, leaving other entries untouched. -/
def aupdate {α β : Type} [DecidableEq α] (f : β → β) : List (α × β) → α → List (α × β)
  | [], _ => []
  | (k, v) :: rest, key => if key = k then (k, f v) :: rest else (k, v) :: aupdate f rest key

/-- `Set.prototype.add` on a `String` set kept in insertion order. -/
def addToSetStr (l : List String) (x : String) : List String :=
  if x ∈ l then l else l ++ [x]

/-- `Set.prototype.add` on an `Int` set kept in insertion order. -/
def addToSetInt (l : List Int) (x : Int) : List Int :=
  if x ∈ l then l else l ++ [x]

/-! ### `calculateStats` (`src/unnamed/part_004` second document, lines 472-542) -/

/-- One per-transport-type aggregate: `{ count, distanceMeters, durationMs }`
(the duration is `NaN`-aware). -/
structure TransportAgg where
  count : Nat := 0
  distanceMeters : ℚ := 0
  durationMs : Option Int := some 0
deriving DecidableEq, Repr

/-- One per-place aggregate: `{ name, count, latLng, country }`. -/
structure VisitAgg where
  name : String
  count : Nat
  latLng : Option String
  country : Option String
deriving DecidableEq, Repr

/-- The result of `calculateStats`.  `countries` is the `Set` in insertion
order; `transport` and `visits` are the object maps in insertion order.  The
`visitTypes` field of the source is initialized to `{}` and never written, so
it is omitted. -/
structure Stats where
  totalDistanceMeters : ℚ := 0
  totalVisits : Nat := 0
  countries : List String := []
  transport : List (String × TransportAgg) := []
  visits : List (Option String × VisitAgg) := []
deriving DecidableEq, Repr

/-- Transport upsert: create `{0, 0, 0}` on first sight of the type, then
`count++`, `if (distanceMeters) distanceMeters += ...`, `durationMs +=
duration`. -/
def upsertTransport (tr : List (String × TransportAgg)) (type : String) (dm : ℚ)
    (dur : Option Int) : List (String × TransportAgg) :=
  let tr :=
    match alookup tr type with
    | some _ => tr
    | none => tr ++ [(type, {})]
  aupdate (fun a =>
    { a with
      count := a.count + 1
      distanceMeters := if dm ≠ 0 then qadd a.distanceMeters dm else a.distanceMeters
      durationMs := jsAddMs a.durationMs dur }) tr type

/-- The activity block of the `calculateStats` loop body (lines 484-503):
coerce the distance with `Number(...) || 0`, accumulate the total, and when a
non-empty raw type is present upsert the transport aggregate under the
canonical type. -/
def activityStep (st : Stats) (seg : Segment) : Stats :=
  match seg.activity with
  | none => st
  | some activity =>
    let distanceMeters := jsNumberOrZero activity.distanceMeters
    let st :=
      if distanceMeters ≠ 0 then
        { st with totalDistanceMeters := qadd st.totalDistanceMeters distanceMeters }
      else st
    match activity.topCandidate with
    | none => st
    | some tc =>
      match tc.type with
      | none => st
      | some rawType =>
        if rawType = "" then st
        else
          { st with
            transport :=
              upsertTransport st.transport (normalizeActivityType (some rawType))
                distanceMeters (durationOf seg) }

/-- Display name of a visit: `placeLocation.name` when the place location is
an object with a truthy name, else the `"Unknown Place"` fallback. -/
def visitName (pl : Option PlaceLoc) : String :=
  match pl with
  | some (.obj _ (some n)) => if n = "" then "Unknown Place" else n
  | _ => "Unknown Place"

/-- Country of a visit inside `calculateStats`: the segment's cached
side-channel wins; otherwise parse the coordinate string and consult the
lookup. -/
def visitCountry (lookup : Option CountryLookup) (seg : Segment)
    (latLngStr : Option String) : Option String :=
  match seg.country with
  | some c => some c
  | none =>
    match latLngStr with
    | none => none
    | some s =>
      match parseLatLngString s with
      | none => none
      | some (lat, lng) => getCountryFromLatLng lookup lat lng

/-- Visit upsert (lines 528-536): create the aggregate with the current
visit's name/coordinate/country and count 0 only when the key is new, then
`count++` — the descriptive fields are therefore first-write-wins. -/
def upsertVisit (vs : List (Option String × VisitAgg)) (pid : Option String)
    (name : String) (latLng : Option String) (country : Option String) :
    List (Option String × VisitAgg) :=
  match alookup vs pid with
  | some _ => aupdate (fun a => { a with count := a.count + 1 }) vs pid
  | none => vs ++ [(pid, { name := name, count := 1, latLng := latLng, country := country })]

/-- The visit block of the `calculateStats` loop body (lines 506-538). -/
def visitStep (lookup : Option CountryLookup) (st : Stats) (seg : Segment) : Stats :=
  match seg.visit with
  | none => st
  | some visit =>
    let st := { st with totalVisits := st.totalVisits + 1 }
    match visit.topCandidate with
    | none => st
    | some tc =>
      let latLngStr := getPlaceLatLngStr tc.placeLocation
      let name := visitName tc.placeLocation
      let country := visitCountry lookup seg latLngStr
      let st :=
        match country with
        | some c => { st with countries := addToSetStr st.countries c }
        | none => st
      { st with visits := upsertVisit st.visits tc.placeId name latLngStr country }

/-- `calculateStats`: a single pass over the segments, activity block then
visit block per segment. -/
def calculateStats (lookup : Option CountryLookup) (segments : List Segment) : Stats :=
  segments.foldl (fun st seg => visitStep lookup (activityStep st seg) seg) {}

/-! ### `calculateAdvancedStats` (`src/unnamed/part_004` second document, lines 544-599) -/

/-- The result of `calculateAdvancedStats`, flattened: the `eco` map fields,
the `NaN`-aware `time` split, and the records (`maxVelocity` is never
written and stays 0). -/
structure AdvStats where
  totalCo2 : ℚ := 0
  breakdown : List (String × ℚ) := []
  distanceByType : List (String × ℚ) := []
  moving : Option Int := some 0
  stationary : Option Int := some 0
  total : Option Int := some 0
  longestDrive : ℚ := 0
  longestWalk : ℚ := 0
  maxVelocity : ℚ := 0
deriving DecidableEq, Repr

/-- The fixed CO₂ emission-factor table (grams per km). -/
def emissionFactors : List (String × ℚ) :=
  [("IN_PASSENGER_VEHICLE", 150), ("IN_VEHICLE", 150), ("IN_TAXI", 150),
   ("FLYING", 115), ("IN_BUS", 80), ("IN_TRAIN", 40), ("IN_SUBWAY", 40),
   ("WALKING", 0), ("RUNNING", 0), ("CYCLING", 0), ("MOTORCYCLING", 100)]

/-- `m[k] = (m[k] || 0) + q` on an object used as a numeric map. -/
def addToBag (l : List (String × ℚ)) (k : String) (q : ℚ) : List (String × ℚ) :=
  match alookup l k with
  | some _ => aupdate (fun v => qadd v q) l k
  | none => l ++ [(k, q)]

/-- The loop body of `calculateAdvancedStats`. -/
def advStep (st : AdvStats) (seg : Segment) : AdvStats :=
  let dur := durationOf seg
  let st := { st with total := jsAddMs st.total dur }
  match seg.activity with
  | some activity =>
    let st := { st with moving := jsAddMs st.moving dur }
    let rawType :=
      match activity.topCandidate with
      | some tc =>
        match tc.type with
        | some t => if t = "" then "UNKNOWN" else t
        | none => "UNKNOWN"
      | none => "UNKNOWN"
    let type := normalizeActivityType (some rawType)
    let distanceMeters := jsNumberOrZero activity.distanceMeters
    let distanceKm := qdiv distanceMeters 1000
    let st := { st with distanceByType := addToBag st.distanceByType type distanceKm }
    let factor := (alookup emissionFactors type).getD 0
    let co2 := qmul distanceKm factor
    let st :=
      { st with
        totalCo2 := qadd st.totalCo2 co2
        breakdown := addToBag st.breakdown type co2 }
    if distanceMeters ≠ 0 then
      let st :=
        if (type = "IN_PASSENGER_VEHICLE" ∨ type = "IN_VEHICLE") ∧
            distanceMeters > st.longestDrive then
          { st with longestDrive := distanceMeters }
        else st
      if (type = "WALKING" ∨ type = "RUNNING") ∧ distanceMeters > st.longestWalk then
        { st with longestWalk := distanceMeters }
      else st
    else st
  | none =>
    match seg.visit with
    | some _ => { st with stationary := jsAddMs st.stationary dur }
    | none => st

/-- `calculateAdvancedStats`: a single pass over the segments. -/
def calculateAdvancedStats (segments : List Segment) : AdvStats :=
  segments.foldl advStep {}

/-! ### `processTimelineData` -/

/-- A derived location point (the flattened record pushed onto
`allLocations`); times are kept as epoch milliseconds. -/
structure LocationPoint where
  lat : ℚ
  lng : ℚ
  startTime : Option Int
  endTime : Option Int
  name : Option String
  probability : Option NumField
  placeId : Option String
  country : Option String
deriving DecidableEq, Repr

/-- `(placeLocation && typeof placeLocation === 'object' && placeLocation.name) || null`. -/
def locName (pl : Option PlaceLoc) : Option String :=
  match pl with
  | some (.obj _ (some n)) => if n = "" then none else some n
  | _ => none

/-- The visit branch of the `processTimelineData` loop (`src/unnamed/part_004`
second document, lines 408-438): parse the place coordinate; on success,
resolve the country (writing it onto the segment as the side-channel) and
emit one location point. -/
def processVisit (lookup : Option CountryLookup) (seg : Segment) :
    Segment × List LocationPoint :=
  match seg.visit with
  | none => (seg, [])
  | some visit =>
    let pl : Option PlaceLoc := visit.topCandidate.bind (fun tc => tc.placeLocation)
    let latLngStr := getPlaceLatLngStr pl
    match latLngStr.bind parseLatLngString with
    | none => (seg, [])
    | some (lat, lng) =>
      let country := getCountryFromLatLng lookup lat lng
      let seg1 :=
        match country with
        | some c => { seg with country := some c }
        | none => seg
      (seg1,
        [{ lat := lat, lng := lng
           startTime := seg.startTime.map DateVal.epochMs
           endTime := seg.endTime.map DateVal.epochMs
           name := locName pl
           probability := visit.probability
           placeId := visit.topCandidate.bind (fun tc => tc.placeId)
           country := country }])

/-- The `timelinePath` branch of the `processTimelineData` loop (lines
441-461): each parseable trail point becomes a location point at
`segmentStart + offsetMinutes`, with no name/probability/place id. -/
def pathLocations (lookup : Option CountryLookup) (seg : Segment) : List LocationPoint :=
  let segmentStart : Int :=
    match seg.startTime with
    | some d => d.epochMs
    | none => 0
  seg.timelinePath.filterMap fun pt =>
    match pt.point.bind parseLatLngString with
    | none => none
    | some (lat, lng) =>
      let t := segmentStart + jsParseIntOrZero pt.durationMinutesOffsetFromStartTime * 60000
      some
        { lat := lat, lng := lng, startTime := some t, endTime := some t
          name := none, probability := none, placeId := none
          country := getCountryFromLatLng lookup lat lng }

/-- Modelled from the spec: `visitPassesProbabilityThreshold` is exported by
the head `timeline-utils.js`, which is present in the repository only through
its unit tests and callers.  Per §4.2 of the spec a visit is included when
its probability is absent/null, when the threshold is 0, or when the
(possibly string-encoded) probability parses to a number ≥ the threshold;
a present but unparseable probability never excludes a visit. -/
def visitPassesProbabilityThreshold (visit : Option Visit) (threshold : ℚ) : Bool :=
  match visit with
  | none => true
  | some v =>
    match v.probability with
    | none => true
    | some p =>
      if threshold = 0 then true
      else
        match jsToNumber (some p) with
        | none => true
        | some q => decide (threshold ≤ q)

/-- Modelled from the spec: the probability filter applies only to visit
segments; activity and path-only segments always pass. -/
def segmentPassesFilter (seg : Segment) (threshold : ℚ) : Bool :=
  match seg.visit with
  | none => true
  | some v => visitPassesProbabilityThreshold (some v) threshold

/-- The `{segments, locations, years}` output record (source field names
`allSegments` / `allLocations` / `years`). -/
structure ProcessResult where
  allSegments : List Segment
  allLocations : List LocationPoint
  years : List Int
deriving DecidableEq, Repr

/-- `processTimelineData` over either root shape.  The per-segment
processing (years, visit locations with the country side-channel, timeline
path points) follows `src/unnamed/part_004` (second document, lines
394-469).  The `probabilityThreshold` option is modelled from the spec
(§4.2): visit segments failing the filter are removed from the output
segment list and emit no location, while year collection and `timelinePath`
points are per-segment steps not subject to the filter. -/
def processTimelineData (lookup : Option CountryLookup) (data : TimelineRoot)
    (probabilityThreshold : ℚ) : ProcessResult :=
  let raw := getSegmentsFromData data
  { allSegments :=
      raw.filterMap fun s =>
        if segmentPassesFilter s probabilityThreshold then some (processVisit lookup s).1
        else none
    allLocations :=
      raw.flatMap fun s =>
        (if segmentPassesFilter s probabilityThreshold then (processVisit lookup s).2
         else []) ++ pathLocations lookup s
    years := (raw.filterMap fun s => s.startTime.map DateVal.year).foldl addToSetInt [] }

/-! ### Concrete inputs used by the claims -/

/-- The unit-square ring `[[0,0],[0,1],[1,1],[1,0],[0,0]]` in `[lng, lat]`
coordinate order. -/
def unitSquare : List (ℚ × ℚ) := [(0, 0), (0, 1), (1, 1), (1, 0), (0, 0)]

/-- End-to-end scenario, visit part: a visit at `"10, 20"` with no
probability. -/
def demoVisitSeg : Segment :=
  { startTime := some ⟨0, 2024⟩, endTime := some ⟨600000, 2024⟩
    visit := some
      { probability := none
        topCandidate := some
          { placeId := some "P1"
            placeLocation := some (.obj (some "10, 20") (some "Home")) } } }

/-- End-to-end scenario, activity part: an `IN_PASSENGER_VEHICLE` activity of
10000 meters lasting one hour. -/
def demoActivitySeg : Segment :=
  { startTime := some ⟨600000, 2024⟩, endTime := some ⟨4200000, 2024⟩
    activity := some
      { distanceMeters := some (.num 10000)
        topCandidate := some { type := some "IN_PASSENGER_VEHICLE" } } }

/-- Probability-filter scenario: a visit with probability 0.3 at `"10, 20"`. -/
def lowProbSeg : Segment :=
  { startTime := some ⟨1672567200000, 2023⟩
    visit := some
      { probability := some (.num (mkRat 3 10))
        topCandidate := some
          { placeId := some "low", placeLocation := some (.obj (some "10, 20") none) } } }

/-- Probability-filter scenario: a visit with probability 0.9 at `"30, 40"`. -/
def highProbSeg : Segment :=
  { startTime := some ⟨1672653600000, 2023⟩
    visit := some
      { probability := some (.num (mkRat 9 10))
        topCandidate := some
          { placeId := some "high", placeLocation := some (.obj (some "30, 40") none) } } }

/-- A visit whose probability is present but not numeric. -/
def unparseableProbSeg : Segment :=
  { startTime := some ⟨1672567200000, 2023⟩
    visit := some
      { probability := some (.str "abc")
        topCandidate := some
          { placeId := some "u", placeLocation := some (.obj (some "10, 20") none) } } }

/-- A visit carrying no `topCandidate` at all. -/
def noTopCandidateSeg : Segment :=
  { startTime := some ⟨1672567200000, 2023⟩
    visit := some { probability := none, topCandidate := none } }

/-- A visit that passes every probability filter (absent probability) but
whose coordinate string does not parse. -/
def noCoordSeg : Segment :=
  { visit := some
      { probability := none
        topCandidate := some
          { placeId := some "nc", placeLocation := some (.obj (some "oops") none) } } }

/-- First of two visits to place id `A`, named `N1`. -/
def dupVisitSeg1 : Segment :=
  { visit := some
      { probability := none
        topCandidate := some
          { placeId := some "A", placeLocation := some (.obj (some "10, 20") (some "N1")) } } }

/-- Second visit to place id `A`, named `N2` at a different coordinate. -/
def dupVisitSeg2 : Segment :=
  { visit := some
      { probability := none
        topCandidate := some
          { placeId := some "A", placeLocation := some (.obj (some "30, 40") (some "N2")) } } }

/-- The numeric contribution of one segment to `totalDistanceMeters`: the
coerced activity distance (zero for parse failures), and zero for segments
without an activity (in particular visit-only segments). -/
def segmentDistanceContribution (seg : Segment) : ℚ :=
  match seg.activity with
  | some a => jsNumberOrZero a.distanceMeters
  | none => 0

/-! ### Claim C1: root-shape dispatch of `processTimelineData` -/

/-- **C1.**  `processTimelineData` accepts both root shapes: an object with a
`semanticSegments` array and a bare array at the root produce identical
`{segments, locations, years}` output for the same segment list, any lookup
and any threshold; a root matching neither shape (an object without a
`semanticSegments` array, or a non-object non-array root) yields an empty
segment list (and empty locations and years). -/
theorem claim_C1_root_shape_dispatch (lookup : Option CountryLookup) (θ : ℚ)
    (S : List Segment) :
    processTimelineData lookup (.objRoot (some S)) θ =
        processTimelineData lookup (.arrRoot S) θ ∧
      processTimelineData lookup (.objRoot none) θ =
        { allSegments := [], allLocations := [], years := [] } ∧
      processTimelineData lookup .otherRoot θ =
        { allSegments := [], allLocations := [], years := [] } :=
  ⟨rfl, rfl, rfl⟩

/-! ### Claim C3: coordinate parsing -/

/-- **C3.**  `parseLatLngString` succeeds on both accepted forms — the degree
form `"12.9716°, 77.5946°"` and the URI form `"geo:12.952684,77.693002"`
yield the two numbers as `{lat, lng}` — and, being a total function, never
throws: every input whose normalized form does not split into exactly two
comma-separated components, and every input one of whose two components has
no numeric prefix, yields the failure sentinel `none`. -/
theorem claim_C3_coordinate_parsing :
    parseLatLngString "12.9716°, 77.5946°" =
        some (mkRat 129716 10000, mkRat 775946 10000) ∧
      parseLatLngString "geo:12.952684,77.693002" =
        some (mkRat 12952684 1000000, mkRat 77693002 1000000) ∧
      (∀ s : String,
        (splitOnComma (jsTrim (removeDegree (stripGeo s.data)))).length ≠ 2 →
        parseLatLngString s = none) ∧
      (∀ (s : String) (p1 p2 : List Char),
        splitOnComma (jsTrim (removeDegree (stripGeo s.data))) = [p1, p2] →
        jsParseFloat (jsTrim p1) = none ∨ jsParseFloat (jsTrim p2) = none →
        parseLatLngString s = none) := by
  refine ⟨by decide, by decide, ?_, ?_⟩
  · intro s h
    rw [parseLatLngString]
    split
    · rfl
    · cases hs : splitOnComma (jsTrim (removeDegree (stripGeo s.data))) with
      | nil => rfl
      | cons p t =>
        cases t with
        | nil => rfl
        | cons p2 t2 =>
          cases t2 with
          | nil => exact absurd (by rw [hs]; rfl) h
          | cons p3 t3 => rfl
  · intro s p1 p2 hs hnone
    rw [parseLatLngString]
    split
    · rfl
    · rw [hs]
      rcases hnone with h1 | h2
      · simp [h1]
      · rcases jsParseFloat (jsTrim p1) with _ | q <;> simp [h2]

/-- Witness for C3: `"1,2,3"` splits into three components and indeed parses
to `none`; `"10, x"` has a non-numeric second component and parses to
`none`. -/
theorem claim_C3_coordinate_parsing_witness :
    (splitOnComma (jsTrim (removeDegree (stripGeo ("1,2,3").data)))).length ≠ 2 ∧
      parseLatLngString "1,2,3" = none ∧ parseLatLngString "10, x" = none :=
  ⟨by decide, claim_C3_coordinate_parsing.2.2.1 "1,2,3" (by decide),
    claim_C3_coordinate_parsing.2.2.2 "10, x" ("10".data) (" x".data) (by decide)
      (Or.inr (by decide))⟩

/-! ### Claim C4: activity-type canonicalization -/

theorem char_toNat_ofNat {n : Nat} (h : n.isValidChar) : (Char.ofNat n).toNat = n := by
  rw [Char.ofNat, dif_pos h]
  rfl

theorem jsToUpper_of_lower {c : Char} (h : 97 ≤ c.toNat ∧ c.toNat ≤ 122) :
    jsToUpper c = Char.ofNat (c.toNat - 32) := by
  rw [jsToUpper, if_pos h]

theorem jsToUpper_idem (c : Char) : jsToUpper (jsToUpper c) = jsToUpper c := by
  by_cases h : 97 ≤ c.toNat ∧ c.toNat ≤ 122
  · have hval : (c.toNat - 32).isValidChar := Or.inl (by omega)
    rw [jsToUpper_of_lower h, jsToUpper, if_neg]
    rw [char_toNat_ofNat hval]
    omega
  · have h1 : jsToUpper c = c := by rw [jsToUpper, if_neg h]
    rw [h1, h1]

theorem jsIsWs_jsToUpper (c : Char) : jsIsWs (jsToUpper c) = jsIsWs c := by
  by_cases h : 97 ≤ c.toNat ∧ c.toNat ≤ 122
  · have hval : (c.toNat - 32).isValidChar := Or.inl (by omega)
    rw [jsToUpper_of_lower h]
    have h1 : c.toNat - 32 ∉ jsWsCodes := by
      simp only [jsWsCodes, List.mem_cons, List.not_mem_nil, or_false]
      omega
    have h2 : c.toNat ∉ jsWsCodes := by
      simp only [jsWsCodes, List.mem_cons, List.not_mem_nil, or_false]
      omega
    simp [jsIsWs, char_toNat_ofNat hval, h1, h2]
  · rw [jsToUpper, if_neg h]

theorem mem_collapseWsGo {c : Char} :
    ∀ (l : List Char) (b : Bool), c ∈ collapseWsGo b l → c = '_' ∨ c ∈ l := by
  intro l
  induction l with
  | nil => intro b h; simp [collapseWsGo] at h
  | cons d ds ih =>
    intro b h
    rw [collapseWsGo] at h
    by_cases hw : jsIsWs d
    · rw [if_pos hw] at h
      cases b with
      | true =>
        rcases ih true h with h1 | h1
        · exact Or.inl h1
        · exact Or.inr (List.mem_cons_of_mem d h1)
      | false =>
        rcases List.mem_cons.mp h with h1 | h1
        · exact Or.inl h1
        · rcases ih true h1 with h2 | h2
          · exact Or.inl h2
          · exact Or.inr (List.mem_cons_of_mem d h2)
    · rw [if_neg hw] at h
      rcases List.mem_cons.mp h with h1 | h1
      · exact Or.inr (h1 ▸ List.mem_cons_self d ds)
      · rcases ih false h1 with h2 | h2
        · exact Or.inl h2
        · exact Or.inr (List.mem_cons_of_mem d h2)

theorem noWs_collapseWsGo {c : Char} :
    ∀ (l : List Char) (b : Bool), c ∈ collapseWsGo b l → jsIsWs c = false := by
  intro l
  induction l with
  | nil => intro b h; simp [collapseWsGo] at h
  | cons d ds ih =>
    intro b h
    rw [collapseWsGo] at h
    by_cases hw : jsIsWs d
    · rw [if_pos hw] at h
      cases b with
      | true => exact ih true h
      | false =>
        rcases List.mem_cons.mp h with h1 | h1
        · subst h1; decide
        · exact ih true h1
    · rw [if_neg hw] at h
      rcases List.mem_cons.mp h with h1 | h1
      · subst h1; exact Bool.eq_false_iff.mpr hw
      · exact ih false h1

theorem collapseWsGo_of_noWs :
    ∀ l : List Char, (∀ c ∈ l, jsIsWs c = false) → ∀ b, collapseWsGo b l = l := by
  intro l
  induction l with
  | nil => intro _ b; rfl
  | cons d ds ih =>
    intro h b
    rw [collapseWsGo, if_neg]
    · rw [ih (fun c hc => h c (List.mem_cons_of_mem d hc)) false]
    · rw [h d (List.mem_cons_self d ds)]
      exact Bool.false_ne_true

theorem map_jsToUpper_fixed :
    ∀ l : List Char, (∀ c ∈ l, jsToUpper c = c) → l.map jsToUpper = l := by
  intro l
  induction l with
  | nil => intro _; rfl
  | cons d ds ih =>
    intro h
    rw [List.map_cons, h d (List.mem_cons_self d ds),
      ih (fun c hc => h c (List.mem_cons_of_mem d hc))]

theorem normalizeActivityType_idem (s : String) :
    normalizeActivityType (some (normalizeActivityType (some s))) =
      normalizeActivityType (some s) := by
  by_cases hs : s = ""
  · subst hs; decide
  · by_cases hu : collapseWsGo false (s.data.map jsToUpper) = []
    · have h1 : normalizeActivityType (some s) = "UNKNOWN" := by
        simp [normalizeActivityType, hs, hu]
      rw [h1]; decide
    · have h1 : normalizeActivityType (some s) =
          String.mk (collapseWsGo false (s.data.map jsToUpper)) := by
        simp [normalizeActivityType, hs, hu]
      rw [h1]
      have hne : String.mk (collapseWsGo false (s.data.map jsToUpper)) ≠ "" := fun hcon =>
        hu (by simpa using congrArg String.data hcon)
      have hfix : ∀ c ∈ collapseWsGo false (s.data.map jsToUpper), jsToUpper c = c := by
        intro c hc
        rcases mem_collapseWsGo _ _ hc with h2 | h2
        · subst h2; decide
        · rcases List.mem_map.mp h2 with ⟨d, _, rfl⟩
          exact jsToUpper_idem d
      have hnows : ∀ c ∈ collapseWsGo false (s.data.map jsToUpper), jsIsWs c = false :=
        fun c hc => noWs_collapseWsGo _ _ hc
      rw [normalizeActivityType]
      rw [if_neg hne]
      have hdata : (String.mk (collapseWsGo false (s.data.map jsToUpper))).data =
          collapseWsGo false (s.data.map jsToUpper) := rfl
      rw [hdata, map_jsToUpper_fixed _ hfix, collapseWsGo_of_noWs _ hnows false, if_neg hu]

theorem keys_aupdate {α β : Type} [DecidableEq α] (f : β → β) :
    ∀ (l : List (α × β)) (key : α), (aupdate f l key).map Prod.fst = l.map Prod.fst := by
  intro l
  induction l with
  | nil => intro key; rfl
  | cons p rest ih =>
    intro key
    obtain ⟨k, v⟩ := p
    rw [aupdate]
    by_cases hk : key = k
    · rw [if_pos hk]
      simp
    · rw [if_neg hk, List.map_cons, List.map_cons, ih]

theorem mem_keys_upsertTransport {k type : String} {tr : List (String × TransportAgg)}
    {dm : ℚ} {dur : Option Int} :
    k ∈ (upsertTransport tr type dm dur).map Prod.fst →
      k = type ∨ k ∈ tr.map Prod.fst := by
  intro h
  rw [upsertTransport] at h
  rcases halo : alookup tr type with _ | a
  · rw [halo] at h
    rw [keys_aupdate, List.map_append, List.map_cons] at h
    rcases List.mem_append.mp h with h1 | h1
    · exact Or.inr h1
    · rcases List.mem_cons.mp h1 with h2 | h2
      · exact Or.inl h2
      · simp at h2
  · rw [halo] at h
    rw [keys_aupdate] at h
    exact Or.inr h

theorem visitStep_transport (lookup : Option CountryLookup) (st : Stats) (seg : Segment) :
    (visitStep lookup st seg).transport = st.transport := by
  unfold visitStep
  rcases hv : seg.visit with _ | ⟨prob, _ | tc⟩
  · rfl
  · rfl
  · simp only []
    repeat' split
    all_goals rfl

theorem mem_keys_activityStep {k : String} {st : Stats} {seg : Segment} :
    k ∈ (activityStep st seg).transport.map Prod.fst →
      k ∈ st.transport.map Prod.fst ∨ ∃ raw, k = normalizeActivityType (some raw) := by
  unfold activityStep
  rcases hact : seg.activity with _ | ⟨dm, _ | ⟨_ | ty⟩⟩
  · exact fun h => Or.inl h
  · intro h
    simp only [] at h
    revert h
    split <;> intro h <;> exact Or.inl h
  · intro h
    simp only [] at h
    revert h
    split <;> intro h <;> exact Or.inl h
  · intro h
    simp only [] at h
    by_cases hty : ty = ""
    · rw [if_pos hty] at h
      revert h
      split <;> intro h <;> exact Or.inl h
    · rw [if_neg hty] at h
      rcases mem_keys_upsertTransport h with h1 | h1
      · exact Or.inr ⟨ty, h1⟩
      · revert h1
        split <;> intro h1 <;> exact Or.inl h1

theorem calculateStats_transport_keys (lookup : Option CountryLookup) :
    ∀ (segs : List Segment) (st : Stats),
      (∀ k ∈ st.transport.map Prod.fst, normalizeActivityType (some k) = k) →
      ∀ k ∈ ((segs.foldl (fun st seg => visitStep lookup (activityStep st seg) seg)
          st).transport.map Prod.fst),
        normalizeActivityType (some k) = k := by
  intro segs
  induction segs with
  | nil => exact fun st h => h
  | cons s rest ih =>
    intro st hst
    rw [List.foldl_cons]
    apply ih
    intro k hk
    rw [visitStep_transport] at hk
    rcases mem_keys_activityStep hk with h1 | ⟨raw, rfl⟩
    · exact hst k h1
    · exact normalizeActivityType_idem raw

theorem mem_keys_addToBag {k key : String} {l : List (String × ℚ)} {q : ℚ} :
    k ∈ (addToBag l key q).map Prod.fst → k = key ∨ k ∈ l.map Prod.fst := by
  intro h
  rw [addToBag] at h
  rcases halo : alookup l key with _ | v
  · rw [halo] at h
    rw [List.map_append, List.map_cons] at h
    rcases List.mem_append.mp h with h1 | h1
    · exact Or.inr h1
    · rcases List.mem_cons.mp h1 with h2 | h2
      · exact Or.inl h2
      · simp at h2
  · rw [halo, keys_aupdate] at h
    exact Or.inr h

theorem mem_keys_advStep {k : String} {st : AdvStats} {seg : Segment} :
    k ∈ (advStep st seg).breakdown.map Prod.fst →
      k ∈ st.breakdown.map Prod.fst ∨ ∃ raw, k = normalizeActivityType (some raw) := by
  unfold advStep
  rcases hact : seg.activity with _ | ⟨dm, tcopt⟩
  · rcases hvis : seg.visit with _ | v
    · exact fun h => Or.inl h
    · exact fun h => Or.inl h
  · intro h
    simp only [] at h
    revert h
    repeat' split
    all_goals intro h
    all_goals
      rcases mem_keys_addToBag h with h1 | h1
    all_goals first
      | exact Or.inr ⟨_, h1⟩
      | exact Or.inl h1

theorem calculateAdvancedStats_breakdown_keys :
    ∀ (segs : List Segment) (st : AdvStats),
      (∀ k ∈ st.breakdown.map Prod.fst, normalizeActivityType (some k) = k) →
      ∀ k ∈ (segs.foldl advStep st).breakdown.map Prod.fst,
        normalizeActivityType (some k) = k := by
  intro segs
  induction segs with
  | nil => exact fun st h => h
  | cons s rest ih =>
    intro st hst
    rw [List.foldl_cons]
    apply ih
    intro k hk
    rcases mem_keys_advStep hk with h1 | ⟨raw, rfl⟩
    · exact hst k h1
    · exact normalizeActivityType_idem raw

/-- **C4.**  The activity-type canonicalization is idempotent, sends
absent/empty types to the literal `UNKNOWN` token, and sends the
case/separator variants `"in bus"`, `"IN_BUS"`, `"in_bus"` to the single
token `IN_BUS`; moreover it is applied at every point an activity type is
read: every transport key produced by `calculateStats` and every eco
breakdown key produced by `calculateAdvancedStats` is a fixed point of the
canonicalization. -/
theorem claim_C4_canonicalization :
    (∀ s : String,
        normalizeActivityType (some (normalizeActivityType (some s))) =
          normalizeActivityType (some s)) ∧
      normalizeActivityType none = "UNKNOWN" ∧
      normalizeActivityType (some "") = "UNKNOWN" ∧
      normalizeActivityType (some "in bus") = "IN_BUS" ∧
      normalizeActivityType (some "IN_BUS") = "IN_BUS" ∧
      normalizeActivityType (some "in_bus") = "IN_BUS" ∧
      (∀ (lookup : Option CountryLookup) (segs : List Segment) (k : String)
          (agg : TransportAgg), (k, agg) ∈ (calculateStats lookup segs).transport →
        normalizeActivityType (some k) = k) ∧
      (∀ (segs : List Segment) (k : String) (q : ℚ),
          (k, q) ∈ (calculateAdvancedStats segs).breakdown →
        normalizeActivityType (some k) = k) := by
  refine ⟨normalizeActivityType_idem, by decide, by decide, by decide, by decide, by decide,
    ?_, ?_⟩
  · intro lookup segs k agg hmem
    exact calculateStats_transport_keys lookup segs {} (by intro k hk; simp at hk) k
      (List.mem_map_of_mem Prod.fst hmem)
  · intro segs k q hmem
    exact calculateAdvancedStats_breakdown_keys segs {} (by intro k hk; simp at hk) k
      (List.mem_map_of_mem Prod.fst hmem)

/-- Witness for C4: the two membership implications discharged on the
end-to-end scenario segments, whose transport map holds the key
`IN_PASSENGER_VEHICLE`. -/
theorem claim_C4_canonicalization_witness :
    normalizeActivityType (some "IN_PASSENGER_VEHICLE") = "IN_PASSENGER_VEHICLE" ∧
      normalizeActivityType (some "IN_BUS") = "IN_BUS" :=
  ⟨claim_C4_canonicalization.2.2.2.2.2.2.1 none [demoActivitySeg] "IN_PASSENGER_VEHICLE"
      { count := 1, distanceMeters := 10000, durationMs := some 3600000 } (by decide),
    claim_C4_canonicalization.2.2.2.2.2.2.2
      [{ activity := some { distanceMeters := some (.num 1000),
                            topCandidate := some { type := some "in bus" } } }]
      "IN_BUS" (mkRat 80 1) (by decide)⟩

/-! ### Claim C6: total distance is the exact sum of coerced distances -/

theorem activityStep_visits (st : Stats) (seg : Segment) :
    (activityStep st seg).visits = st.visits := by
  unfold activityStep
  rcases hv : seg.activity with _ | ⟨dm, tcopt⟩
  · rfl
  · simp only []
    repeat' split
    all_goals rfl

theorem activityStep_countries (st : Stats) (seg : Segment) :
    (activityStep st seg).countries = st.countries := by
  unfold activityStep
  rcases hv : seg.activity with _ | ⟨dm, tcopt⟩
  · rfl
  · simp only []
    repeat' split
    all_goals rfl

theorem activityStep_totalVisits (st : Stats) (seg : Segment) :
    (activityStep st seg).totalVisits = st.totalVisits := by
  unfold activityStep
  rcases hv : seg.activity with _ | ⟨dm, tcopt⟩
  · rfl
  · simp only []
    repeat' split
    all_goals rfl

theorem visitStep_totalDistance (lookup : Option CountryLookup) (st : Stats) (seg : Segment) :
    (visitStep lookup st seg).totalDistanceMeters = st.totalDistanceMeters := by
  unfold visitStep
  rcases hv : seg.visit with _ | ⟨prob, _ | tc⟩
  · rfl
  · rfl
  · simp only []
    repeat' split
    all_goals rfl

theorem activityStep_totalDistance (st : Stats) (seg : Segment) :
    (activityStep st seg).totalDistanceMeters =
      st.totalDistanceMeters + segmentDistanceContribution seg := by
  unfold activityStep segmentDistanceContribution
  rcases hv : seg.activity with _ | ⟨dm, tcopt⟩
  · simp
  · simp only []
    repeat' split
    all_goals try simp only [qadd_eq]
    all_goals first
      | rfl
      | (rename_i h
         rw [not_not] at h
         rw [h, add_zero])

theorem calculateStats_totalDistance_go (lookup : Option CountryLookup) :
    ∀ (segs : List Segment) (st : Stats),
      ((segs.foldl (fun st seg => visitStep lookup (activityStep st seg) seg) st)
          ).totalDistanceMeters =
        st.totalDistanceMeters + (segs.map segmentDistanceContribution).sum := by
  intro segs
  induction segs with
  | nil => intro st; simp
  | cons s rest ih =>
    intro st
    rw [List.foldl_cons, ih, visitStep_totalDistance, activityStep_totalDistance,
      List.map_cons, List.sum_cons]
    ring

/-- **C6.**  For every segment list (in particular any list whose activity
distances are nonnegative numbers or numeric strings), `calculateStats`
returns `totalDistanceMeters` equal to the exact sum of the coerced activity
distances, with parse failures counted as zero and visit segments
contributing zero (`segmentDistanceContribution`). -/
theorem claim_C6_total_distance (lookup : Option CountryLookup) (segs : List Segment) :
    (calculateStats lookup segs).totalDistanceMeters =
      (segs.map segmentDistanceContribution).sum := by
  unfold calculateStats
  rw [calculateStats_totalDistance_go]
  simp

/-! ### Claim C5: the visit aggregate upsert -/

theorem alookup_aupdate_of_eq {α β : Type} [DecidableEq α] (f : β → β) :
    ∀ (l : List (α × β)) (key : α) (v : β), alookup l key = some v →
      alookup (aupdate f l key) key = some (f v) := by
  intro l
  induction l with
  | nil => intro key v h; simp [alookup] at h
  | cons p rest ih =>
    intro key v h
    obtain ⟨k, w⟩ := p
    rw [alookup] at h
    rw [aupdate]
    by_cases hk : key = k
    · rw [if_pos hk] at h
      rw [if_pos hk, alookup, if_pos hk]
      rw [Option.some_inj] at h
      rw [h]
    · rw [if_neg hk] at h
      rw [if_neg hk, alookup, if_neg hk]
      exact ih key v h

theorem alookup_append_of_none {α β : Type} [DecidableEq α] :
    ∀ (l : List (α × β)) (key : α) (v : β), alookup l key = none →
      alookup (l ++ [(key, v)]) key = some v := by
  intro l
  induction l with
  | nil =>
    intro key v _
    rw [List.nil_append, alookup, if_pos rfl]
  | cons p rest ih =>
    intro key v h
    obtain ⟨k, w⟩ := p
    rw [alookup] at h
    by_cases hk : key = k
    · rw [if_pos hk] at h
      exact absurd h (by simp)
    · rw [if_neg hk] at h
      rw [List.cons_append, alookup, if_neg hk]
      exact ih key v h

theorem alookup_upsertVisit (vs : List (Option String × VisitAgg)) (pid : Option String)
    (name : String) (latLng : Option String) (country : Option String) :
    alookup (upsertVisit vs pid name latLng country) pid =
      some
        (match alookup vs pid with
          | some a => { a with count := a.count + 1 }
          | none =>
            { name := name, count := 1, latLng := latLng, country := country }) := by
  rw [upsertVisit]
  rcases h : alookup vs pid with _ | a
  · exact alookup_append_of_none vs pid _ h
  · exact alookup_aupdate_of_eq _ vs pid a h

theorem visitStep_visits_of_topCandidate (lookup : Option CountryLookup) (st : Stats)
    (seg : Segment) (visit : Visit) (tc : VisitTopCandidate)
    (hv : seg.visit = some visit) (htc : visit.topCandidate = some tc) :
    (visitStep lookup st seg).visits =
      upsertVisit st.visits tc.placeId (visitName tc.placeLocation)
        (getPlaceLatLngStr tc.placeLocation)
        (visitCountry lookup seg (getPlaceLatLngStr tc.placeLocation)) := by
  unfold visitStep
  rw [hv]
  simp only []
  rw [htc]
  simp only []
  split <;> rfl

theorem calculateStats_append (lookup : Option CountryLookup) (segs : List Segment)
    (s : Segment) :
    calculateStats lookup (segs ++ [s]) =
      visitStep lookup (activityStep (calculateStats lookup segs) s) s := by
  unfold calculateStats
  rw [List.foldl_append]
  rfl

/-- **C5 (amended).**  The `VisitAggregate` upsert is create-once /
first-write-wins: appending a visit segment for a place id to any segment
list either increments the existing aggregate's count — leaving its name,
coordinate string and country untouched — or, when the place id is new,
creates the aggregate with count 1 carrying this visit's name, coordinate
and country. -/
theorem claim_C5_amended_upsert (lookup : Option CountryLookup) (segs : List Segment)
    (s : Segment) (visit : Visit) (tc : VisitTopCandidate)
    (hv : s.visit = some visit) (htc : visit.topCandidate = some tc) :
    alookup (calculateStats lookup (segs ++ [s])).visits tc.placeId =
      some
        (match alookup (calculateStats lookup segs).visits tc.placeId with
          | some a => { a with count := a.count + 1 }
          | none =>
            { name := visitName tc.placeLocation, count := 1
              latLng := getPlaceLatLngStr tc.placeLocation
              country := visitCountry lookup s (getPlaceLatLngStr tc.placeLocation) }) := by
  rw [calculateStats_append,
    visitStep_visits_of_topCandidate lookup _ s visit tc hv htc,
    alookup_upsertVisit, activityStep_visits]

/-- Witness for C5 (amended): appending the duplicate visit `dupVisitSeg2`
(place id `A`, name `N2`) to `[dupVisitSeg1]` increments the existing
aggregate while keeping the first-seen name `N1` and coordinate. -/
theorem claim_C5_amended_upsert_witness :
    alookup (calculateStats none ([dupVisitSeg1] ++ [dupVisitSeg2])).visits (some "A") =
      some { name := "N1", count := 2, latLng := some "10, 20", country := none } := by
  rw [claim_C5_amended_upsert none [dupVisitSeg1] dupVisitSeg2
    { probability := none
      topCandidate := some
        { placeId := some "A", placeLocation := some (.obj (some "30, 40") (some "N2")) } }
    { placeId := some "A", placeLocation := some (.obj (some "30, 40") (some "N2")) }
    rfl rfl]
  decide

/-- Counterexample to C5 as stated: after two visits to place id `A` carrying
names `N1` then `N2` and different coordinates, the aggregate keeps the
first-seen name `N1` and coordinate `"10, 20"` — not the last-seen values the
claim requires. -/
theorem claim_C5_counterexample :
    alookup (calculateStats none [dupVisitSeg1, dupVisitSeg2]).visits (some "A") =
        some { name := "N1", count := 2, latLng := some "10, 20", country := none } ∧
      ("N1" : String) ≠ "N2" ∧ (some "10, 20" : Option String) ≠ some "30, 40" := by
  refine ⟨by decide, by decide, by decide⟩

/-! ### Claim C10: visits without a top candidate -/

theorem activityStep_of_no_activity (st : Stats) (seg : Segment)
    (h : seg.activity = none) : activityStep st seg = st := by
  unfold activityStep
  rw [h]

/-- **C10.**  A visit segment whose visit has no `topCandidate` changes
`calculateStats` output only by incrementing `totalVisits`: no visits-map
entry, no countries entry, no distance.  Consequently `totalVisits` can
strictly exceed the sum of the per-place visit counts, as the concrete
one-segment input shows. -/
theorem claim_C10_topCandidate_less_visits (lookup : Option CountryLookup)
    (segs : List Segment) (s : Segment) (visit : Visit)
    (hv : s.visit = some visit) (htc : visit.topCandidate = none)
    (ha : s.activity = none) :
    calculateStats lookup (segs ++ [s]) =
        { calculateStats lookup segs with
          totalVisits := (calculateStats lookup segs).totalVisits + 1 } ∧
      (calculateStats none [noTopCandidateSeg]).totalVisits = 1 ∧
      ((calculateStats none [noTopCandidateSeg]).visits.map fun p => p.2.count).sum = 0 := by
  refine ⟨?_, by decide, by decide⟩
  rw [calculateStats_append, activityStep_of_no_activity _ _ ha]
  unfold visitStep
  rw [hv]
  simp only []
  rw [htc]

/-- Witness for C10: appending the top-candidate-less visit to the empty
list yields exactly a `totalVisits` increment on empty statistics. -/
theorem claim_C10_topCandidate_less_visits_witness :
    calculateStats none ([] ++ [noTopCandidateSeg]) =
      { calculateStats none [] with
        totalVisits := (calculateStats none []).totalVisits + 1 } :=
  (claim_C10_topCandidate_less_visits none [] noTopCandidateSeg
    { probability := none, topCandidate := none } rfl rfl rfl).1

/-! ### Claim C7: end-to-end scenario -/

/-- **C7.**  Processing the two-segment input — a visit at `"10, 20"` with no
probability and an `IN_PASSENGER_VEHICLE` activity of 10000 meters lasting
one hour — yields `totalDistanceMeters = 10000`, `totalVisits = 1`,
`transport.IN_PASSENGER_VEHICLE = {count 1, distanceMeters 10000,
durationMs 3600000}`, `eco.totalCo2 = 1500` and
`records.longestDrive = 10000`. -/
theorem claim_C7_end_to_end :
    (calculateStats none [demoVisitSeg, demoActivitySeg]).totalDistanceMeters = 10000 ∧
      (calculateStats none [demoVisitSeg, demoActivitySeg]).totalVisits = 1 ∧
      alookup (calculateStats none [demoVisitSeg, demoActivitySeg]).transport
          "IN_PASSENGER_VEHICLE" =
        some { count := 1, distanceMeters := 10000, durationMs := some 3600000 } ∧
      (calculateAdvancedStats [demoVisitSeg, demoActivitySeg]).totalCo2 = 1500 ∧
      (calculateAdvancedStats [demoVisitSeg, demoActivitySeg]).longestDrive = 10000 := by
  refine ⟨by decide, by decide, by decide, by decide, by decide⟩

/-! ### Claim C9: degraded mode without a boundary dataset -/

theorem visitCountry_of_no_lookup (seg : Segment) (latLngStr : Option String)
    (h : seg.country = none) : visitCountry none seg latLngStr = none := by
  unfold visitCountry
  rw [h]
  repeat' split
  all_goals first
    | rfl
    | simp_all

theorem mem_aupdate {α β : Type} [DecidableEq α] (f : β → β) :
    ∀ (l : List (α × β)) (key : α) (p : α × β), p ∈ aupdate f l key →
      p ∈ l ∨ ∃ v, (p.1, v) ∈ l ∧ p.2 = f v := by
  intro l
  induction l with
  | nil => intro key p h; simp [aupdate] at h
  | cons q rest ih =>
    intro key p h
    obtain ⟨k, w⟩ := q
    rw [aupdate] at h
    by_cases hk : key = k
    · rw [if_pos hk] at h
      rcases List.mem_cons.mp h with h1 | h1
      · subst h1
        exact Or.inr ⟨w, List.mem_cons_self _ _, rfl⟩
      · exact Or.inl (List.mem_cons_of_mem _ h1)
    · rw [if_neg hk] at h
      rcases List.mem_cons.mp h with h1 | h1
      · subst h1
        exact Or.inl (List.mem_cons_self _ _)
      · rcases ih key p h1 with h2 | ⟨v, hv, he⟩
        · exact Or.inl (List.mem_cons_of_mem _ h2)
        · exact Or.inr ⟨v, List.mem_cons_of_mem _ hv, he⟩

theorem country_mem_upsertVisit {vs : List (Option String × VisitAgg)}
    {pid pid' : Option String} {name : String} {latLng : Option String}
    {agg : VisitAgg}
    (h : (pid', agg) ∈ upsertVisit vs pid name latLng none)
    (hvs : ∀ p a, (p, a) ∈ vs → VisitAgg.country a = none) :
    agg.country = none := by
  rw [upsertVisit] at h
  rcases halo : alookup vs pid with _ | a
  · rw [halo] at h
    rcases List.mem_append.mp h with h1 | h1
    · exact hvs pid' agg h1
    · rcases List.mem_cons.mp h1 with h2 | h2
      · rw [Prod.mk.injEq] at h2
        rw [h2.2]
      · simp at h2
  · rw [halo] at h
    rcases mem_aupdate _ vs pid (pid', agg) h with h1 | ⟨v, hv, he⟩
    · exact hvs pid' agg h1
    · have he2 : agg = { v with count := v.count + 1 } := he
      rw [he2]
      exact hvs pid' v hv

theorem step_preserves_no_country (st : Stats) (s : Segment) (hs : s.country = none)
    (hc : st.countries = []) (hv : ∀ p a, (p, a) ∈ st.visits → VisitAgg.country a = none) :
    (visitStep none (activityStep st s) s).countries = [] ∧
      ∀ p a, (p, a) ∈ (visitStep none (activityStep st s) s).visits →
        VisitAgg.country a = none := by
  have hac : (activityStep st s).countries = st.countries := activityStep_countries st s
  have hav : (activityStep st s).visits = st.visits := activityStep_visits st s
  unfold visitStep
  rcases hvis : s.visit with _ | ⟨prob, _ | tc⟩
  · constructor
    · rw [hac, hc]
    · rw [hav]; exact hv
  · constructor
    · show (activityStep st s).countries = []
      rw [hac, hc]
    · show ∀ p a, (p, a) ∈ (activityStep st s).visits → VisitAgg.country a = none
      rw [hav]; exact hv
  · simp only []
    rw [visitCountry_of_no_lookup s _ hs]
    constructor
    · show (activityStep st s).countries = []
      rw [hac, hc]
    · intro p a hmem
      refine country_mem_upsertVisit hmem ?_
      rw [hav]
      exact hv

theorem calculateStats_no_country_go :
    ∀ (segs : List Segment) (st : Stats), (∀ s ∈ segs, s.country = none) →
      st.countries = [] →
      (∀ p a, (p, a) ∈ st.visits → VisitAgg.country a = none) →
      ((segs.foldl (fun st seg => visitStep none (activityStep st seg) seg) st).countries
          = [] ∧
        ∀ p a, (p, a) ∈
            (segs.foldl (fun st seg => visitStep none (activityStep st seg) seg) st).visits →
          VisitAgg.country a = none) := by
  intro segs
  induction segs with
  | nil => exact fun st _ hc hv => ⟨hc, hv⟩
  | cons s rest ih =>
    intro st hseg hc hv
    rw [List.foldl_cons]
    have hstep := step_preserves_no_country st s (hseg s (List.mem_cons_self s rest)) hc hv
    exact ih _ (fun x hx => hseg x (List.mem_cons_of_mem s hx)) hstep.1 hstep.2

/-- **C9.**  With no boundary dataset configured the country lookup returns
`null` for every query, and consequently, for every segment list whose
segments carry no cached country side-channel, `calculateStats` returns an
empty countries set and `null` country fields on every visit aggregate — a
supported degraded mode, not an error. -/
theorem claim_C9_degraded_mode :
    (∀ lat lng : ℚ, getCountryFromLatLng none lat lng = none) ∧
      ∀ segs : List Segment, (∀ s ∈ segs, s.country = none) →
        (calculateStats none segs).countries = [] ∧
          ∀ p a, (p, a) ∈ (calculateStats none segs).visits → VisitAgg.country a = none := by
  refine ⟨fun lat lng => rfl, ?_⟩
  intro segs hseg
  exact calculateStats_no_country_go segs {} hseg rfl (by intro p a h; simp at h)

/-- Witness for C9: the probability-scenario visits, processed with no
lookup configured, give an empty countries set and a null country on the
aggregate for place id `low`. -/
theorem claim_C9_degraded_mode_witness :
    (calculateStats none [lowProbSeg, highProbSeg]).countries = [] ∧
      (∀ s ∈ [lowProbSeg, highProbSeg], s.country = none) ∧
      getCountryFromLatLng none 10 20 = none := by
  refine ⟨((claim_C9_degraded_mode.2 [lowProbSeg, highProbSeg]) (by decide)).1,
    by decide, claim_C9_degraded_mode.1 10 20⟩

/-! ### Claim C2: the probability-threshold filter -/

theorem processVisit_no_lookup_fst (s : Segment) : (processVisit none s).1 = s := by
  unfold processVisit
  rcases hv : s.visit with _ | v
  · rfl
  · simp only []
    rcases hp : (getPlaceLatLngStr (v.topCandidate.bind fun tc => tc.placeLocation)).bind
        parseLatLngString with _ | p
    · rfl
    · obtain ⟨lat, lng⟩ := p
      rfl

theorem allSegments_no_lookup (data : TimelineRoot) (θ : ℚ) :
    (processTimelineData none data θ).allSegments =
      (getSegmentsFromData data).filter (fun s => segmentPassesFilter s θ) := by
  unfold processTimelineData
  simp only []
  generalize getSegmentsFromData data = l
  induction l with
  | nil => rfl
  | cons s t ih =>
    by_cases hp : segmentPassesFilter s θ = true
    · rw [List.filterMap_cons, if_pos hp,
        @List.filter_cons_of_pos _ (fun x => segmentPassesFilter x θ) s t hp]
      simp only []
      rw [processVisit_no_lookup_fst, ih]
    · rw [List.filterMap_cons, if_neg hp,
        @List.filter_cons_of_neg _ (fun x => segmentPassesFilter x θ) s t (by simpa using hp)]
      simp only []
      exact ih

theorem allSegments_eq (lookup : Option CountryLookup) (data : TimelineRoot) (θ : ℚ) :
    (processTimelineData lookup data θ).allSegments =
      ((getSegmentsFromData data).filter (fun x => segmentPassesFilter x θ)).map
        (fun x => (processVisit lookup x).1) := by
  unfold processTimelineData
  simp only []
  generalize getSegmentsFromData data = l
  induction l with
  | nil => rfl
  | cons s t ih =>
    by_cases hp : segmentPassesFilter s θ = true
    · rw [List.filterMap_cons, if_pos hp,
        @List.filter_cons_of_pos _ (fun x => segmentPassesFilter x θ) s t hp, List.map_cons]
      simp only []
      rw [ih]
    · rw [List.filterMap_cons, if_neg hp,
        @List.filter_cons_of_neg _ (fun x => segmentPassesFilter x θ) s t (by simpa using hp)]
      simp only []
      exact ih

theorem processVisit_enrichment (lookup : Option CountryLookup) (x : Segment) :
    (processVisit lookup x).1 = x ∨
      ∃ c, (processVisit lookup x).1 = { x with country := some c } := by
  unfold processVisit
  rcases hv : x.visit with _ | v
  · exact Or.inl rfl
  · simp only []
    generalize (getPlaceLatLngStr (v.topCandidate.bind fun tc => tc.placeLocation)).bind
      parseLatLngString = r
    rcases r with _ | ⟨lat, lng⟩
    · exact Or.inl rfl
    · simp only []
      generalize getCountryFromLatLng lookup lat lng = c
      rcases c with _ | c
      · exact Or.inl rfl
      · exact Or.inr ⟨c, rfl⟩

theorem processVisit_locations_iff (lookup : Option CountryLookup) (s : Segment)
    (visit : Visit) (hv : s.visit = some visit) :
    ((processVisit lookup s).2 = [] ↔
      (getPlaceLatLngStr (visit.topCandidate.bind fun tc => tc.placeLocation)).bind
        parseLatLngString = none) := by
  unfold processVisit
  rw [hv]
  simp only []
  generalize (getPlaceLatLngStr (visit.topCandidate.bind fun tc => tc.placeLocation)).bind
    parseLatLngString = r
  rcases r with _ | ⟨lat, lng⟩
  · simp
  · simp

theorem segmentPassesFilter_iff (θ : ℚ) (s : Segment) (visit : Visit)
    (hv : s.visit = some visit) :
    (segmentPassesFilter s θ = true ↔
      (visit.probability = none ∨ θ = 0 ∨ jsToNumber visit.probability = none ∨
        ∃ p, jsToNumber visit.probability = some p ∧ θ ≤ p)) := by
  obtain ⟨probOpt, tcOpt⟩ := visit
  unfold segmentPassesFilter
  rw [hv]
  simp only []
  unfold visitPassesProbabilityThreshold
  simp only []
  rcases probOpt with _ | p
  · simp
  · simp only []
    by_cases hθ : θ = 0
    · simp [hθ]
    · rw [if_neg hθ]
      generalize jsToNumber (some p) = r
      rcases r with _ | q
      · simp [hθ]
      · simp [hθ]

/-- **C2 (amended).**  For every lookup, root value and threshold: the
returned segment list consists exactly of the segments passing the
probability filter (each carried over with at most a resolved-country
annotation added by the extractor), and a visit segment passes the filter
iff its probability is absent/null, or the threshold is 0, or the
probability does not parse to a number, or it parses to a number ≥ the
threshold.  The derived location list gathers, per retained segment, its
visit-derived location entries and its timeline-path entries, and a visit
segment's visit-derived entry exists iff its coordinate string parses.
With no lookup configured the retained segments are the passing input
segments themselves, and in the concrete scenario — visits of probability
0.3 and 0.9 at parseable coordinates, threshold 0.5 — exactly the 0.9 visit
is retained in both the segment list and the location list. -/
theorem claim_C2_amended_filter (lookup : Option CountryLookup) (data : TimelineRoot)
    (θ : ℚ) (s : Segment) (visit : Visit) (hv : s.visit = some visit) :
    ((processTimelineData lookup data θ).allSegments =
        ((getSegmentsFromData data).filter (fun x => segmentPassesFilter x θ)).map
          (fun x => (processVisit lookup x).1)) ∧
      (∀ x : Segment, (processVisit lookup x).1 = x ∨
        ∃ c, (processVisit lookup x).1 = { x with country := some c }) ∧
      (segmentPassesFilter s θ = true ↔
        (visit.probability = none ∨ θ = 0 ∨ jsToNumber visit.probability = none ∨
          ∃ p, jsToNumber visit.probability = some p ∧ θ ≤ p)) ∧
      ((processTimelineData lookup data θ).allLocations =
        (getSegmentsFromData data).flatMap fun x =>
          (if segmentPassesFilter x θ then (processVisit lookup x).2 else []) ++
            pathLocations lookup x) ∧
      ((processVisit lookup s).2 = [] ↔
        (getPlaceLatLngStr (visit.topCandidate.bind fun tc => tc.placeLocation)).bind
          parseLatLngString = none) ∧
      (s ∈ (processTimelineData none data θ).allSegments ↔
        s ∈ getSegmentsFromData data ∧
          (visit.probability = none ∨ θ = 0 ∨ jsToNumber visit.probability = none ∨
            ∃ p, jsToNumber visit.probability = some p ∧ θ ≤ p)) ∧
      (processTimelineData none (.objRoot (some [lowProbSeg, highProbSeg]))
          (mkRat 1 2)).allSegments = [highProbSeg] ∧
      (processTimelineData none (.objRoot (some [lowProbSeg, highProbSeg]))
          (mkRat 1 2)).allLocations =
        [{ lat := 30, lng := 40, startTime := some 1672653600000, endTime := none,
           name := none, probability := some (.num (mkRat 9 10)),
           placeId := some "high", country := none }] := by
  refine ⟨allSegments_eq lookup data θ, processVisit_enrichment lookup,
    segmentPassesFilter_iff θ s visit hv, rfl,
    processVisit_locations_iff lookup s visit hv, ?_, by decide, by decide⟩
  rw [allSegments_no_lookup, List.mem_filter, segmentPassesFilter_iff θ s visit hv]

/-- Witness for C2 (amended): the 0.9-probability visit is a member of the
filtered segment list at threshold 0.5, and the filter-passing visit with
the unparseable coordinate string `"oops"` emits no visit-derived location
entry. -/
theorem claim_C2_amended_filter_witness :
    highProbSeg ∈ (processTimelineData none (.objRoot (some [lowProbSeg, highProbSeg]))
        (mkRat 1 2)).allSegments ∧
      segmentPassesFilter noCoordSeg (mkRat 1 2) = true ∧
      (processVisit none noCoordSeg).2 = [] :=
  ⟨(claim_C2_amended_filter none (.objRoot (some [lowProbSeg, highProbSeg])) (mkRat 1 2)
        highProbSeg
        { probability := some (.num (mkRat 9 10))
          topCandidate := some
            { placeId := some "high", placeLocation := some (.obj (some "30, 40") none) } }
        rfl).2.2.2.2.2.1.mpr
      ⟨by decide, Or.inr (Or.inr (Or.inr ⟨mkRat 9 10, by decide, by decide⟩))⟩,
    by decide,
    (claim_C2_amended_filter none .otherRoot (mkRat 1 2) noCoordSeg
        { probability := none
          topCandidate := some
            { placeId := some "nc", placeLocation := some (.obj (some "oops") none) } }
        rfl).2.2.2.2.1.mpr (by decide)⟩

/-- Counterexample to C2 as stated: a visit whose probability is present but
unparseable (`"abc"`), at threshold 0.5, is *included* in both the segment
list and the location list although the claim's condition — probability
absent/null, or threshold 0, or probability parsing to a number ≥ threshold
— is false, so the claimed equivalence fails at this input. -/
theorem claim_C2_counterexample :
    (processTimelineData none (.objRoot (some [unparseableProbSeg]))
        (mkRat 1 2)).allSegments = [unparseableProbSeg] ∧
      (processTimelineData none (.objRoot (some [unparseableProbSeg]))
        (mkRat 1 2)).allLocations ≠ [] ∧
      unparseableProbSeg.visit.map Visit.probability = some (some (.str "abc")) ∧
      jsToNumber (some (.str "abc")) = none ∧
      mkRat 1 2 ≠ 0 := by
  refine ⟨by decide, by decide, by decide, by decide, by decide⟩

/-! ### Claim C8: ray-casting containment -/

/-- **C8.**  The ray-casting test classifies `(0.5, 0.5)` as inside the unit
square and `(5, 5)` as outside; a query at the vertex `(0, 0)` terminates
with a definite boolean (here: inside), and the latitude-delta denominator
of the edge-intersection test is never zero for any pair of edge
latitudes. -/
theorem claim_C8_point_in_polygon :
    pointInPolygon (mkRat 1 2) (mkRat 1 2) unitSquare = true ∧
      pointInPolygon 5 5 unitSquare = false ∧
      pointInPolygon 0 0 unitSquare = true ∧
      ∀ yi yj : ℚ, pipDenom yi yj ≠ 0 := by
  refine ⟨by decide, by decide, by decide, ?_⟩
  intro yi yj
  rw [pipDenom]
  split
  · rw [mkRat_eq_div]
    norm_num
  · next h => exact h

end TravelRecap
